import Mathlib

set_option maxRecDepth 100000

/-!
Shallow embedding of the CHIP-8 interpreter core from src/chip8/chip8.h and
src/chip8/chip8.cpp (the canonical, most complete draft in the repository).

Modelling conventions:
* C++ byte arrays (unsigned char[]) are modelled as functions Nat → Nat where a
  stored byte is read through rd8 (value mod 256) and written through upd8
  (stores mod 256), mirroring the unsigned char type which truncates on every
  assignment.  16-bit quantities (unsigned short: pc, index, sp, stack entries,
  the fetched instruction word) use rd16 / upd16 and explicit mod 65536.
* The rand() call in opcode CXNN is modelled by threading an explicit random
  byte oracle value rnd through the cycle; srand in chip8Initialize is a side
  effect outside the machine state and is not part of the state model.
* The busy-wait loop of opcode FX0A terminates exactly when some keypad entry
  is nonzero; a cycle whose FX0A finds no pressed key never completes, which
  the cycle model reports as the blocked outcome.
* The printf("Unknown opcode"); return; branches of chip8Cycle are modelled by
  the aborted outcome, which carries the (unmodified) machine state.
-/

/-- Read a byte cell: unsigned char values are their residue mod 256. -/
def rd8 (f : Nat → Nat) (i : Nat) : Nat := f i % 256

/-- Write a byte cell: assignment to unsigned char truncates mod 256. -/
def upd8 (f : Nat → Nat) (i v : Nat) : Nat → Nat :=
  fun j => if j = i then v % 256 else f j

/-- Read a 16-bit cell (unsigned short). -/
def rd16 (f : Nat → Nat) (i : Nat) : Nat := f i % 65536

/-- Write a 16-bit cell (unsigned short assignment truncates mod 65536). -/
def upd16 (f : Nat → Nat) (i v : Nat) : Nat → Nat :=
  fun j => if j = i then v % 65536 else f j

/-- A run of byte writes f[base+i] := g i for i = 0,…,n-1, in increasing order,
as performed by the for-loops of opcodeFX55_RegDump, opcodeFX65_RegLoad and by
the sequential byte copy of chip8LoadRom. -/
def writeSeq (f : Nat → Nat) (base : Nat) (g : Nat → Nat) (n : Nat) : Nat → Nat :=
  (List.range n).foldl (fun m i => upd8 m (base + i) (g i)) f

/-- The machine state, struct chip8 from src/chip8/chip8.h (the draw_flag field
is the redraw flag used by chip8.cpp). -/
structure chip8 where
  opcode : Nat
  memory : Nat → Nat
  registers : Nat → Nat
  index : Nat
  pc : Nat
  gfx : Nat → Nat
  delay_timer : Nat
  sound_timer : Nat
  stack : Nat → Nat
  sp : Nat
  key : Nat → Nat
  draw_flag : Bool

/-- MaxMemory from chip8.h. -/
def MaxMemory : Nat := 4096

/-- GfxDisplayWidth from chip8.h. -/
def GfxDisplayWidth : Nat := 64

/-- GfxDisplayHeight from chip8.h. -/
def GfxDisplayHeight : Nat := 32

/-- GfxDisplaySize from chip8.h. -/
def GfxDisplaySize : Nat := GfxDisplayWidth * GfxDisplayHeight

/-- FONT_MEMORY_OFFSET from chip8.cpp. -/
def FONT_MEMORY_OFFSET : Nat := 0x50

/-- PROGRAM_OFFSET from chip8.cpp. -/
def PROGRAM_OFFSET : Nat := 0x200

/-- The 80-byte chip8_fontset table of chip8.cpp, as a list. -/
def fontsetList : List Nat :=
  [0xF0, 0x90, 0x90, 0x90, 0xF0,
   0x20, 0x60, 0x20, 0x20, 0x70,
   0xF0, 0x10, 0xF0, 0x80, 0xF0,
   0xF0, 0x10, 0xF0, 0x10, 0xF0,
   0x90, 0x90, 0xF0, 0x10, 0x10,
   0xF0, 0x80, 0xF0, 0x10, 0xF0,
   0xF0, 0x80, 0xF0, 0x90, 0xF0,
   0xF0, 0x10, 0x20, 0x40, 0x40,
   0xF0, 0x90, 0xF0, 0x90, 0xF0,
   0xF0, 0x90, 0xF0, 0x10, 0xF0,
   0xF0, 0x90, 0xF0, 0x90, 0x90,
   0xE0, 0x90, 0xE0, 0x90, 0xE0,
   0xF0, 0x80, 0x80, 0x80, 0xF0,
   0xE0, 0x90, 0x90, 0x90, 0xE0,
   0xF0, 0x80, 0xF0, 0x80, 0xF0,
   0xF0, 0x80, 0xF0, 0x80, 0x80]

/-- chip8_fontset indexed access (0 outside the 80 entries). -/
def chip8_fontset (i : Nat) : Nat := fontsetList.getD i 0

/-- opcode 00E0: clear the screen (memset gfx to 0, pc += 2, draw flag set). -/
def opcode00E0_ClearScreen (s : chip8) : chip8 :=
  { s with gfx := fun _ => 0, pc := (s.pc + 2) % 65536, draw_flag := true }

/-- opcode 00EE: subroutine return (--sp; pc = stack[sp]; pc += 2). -/
def opcode00EE_SubroutineReturn (s : chip8) : chip8 :=
  let sp1 := (s.sp % 65536 + 65535) % 65536
  { s with sp := sp1, pc := (rd16 s.stack sp1 + 2) % 65536 }

/-- opcode 1NNN: goto NNN. -/
def opcode1NNN_Goto (s : chip8) (w : Nat) : chip8 :=
  { s with pc := w &&& 0x0FFF }

/-- opcode 2NNN: call subroutine at NNN (stack[sp] = pc; ++sp; pc = NNN). -/
def opcode2NNN_Subroutine (s : chip8) (w : Nat) : chip8 :=
  { s with stack := upd16 s.stack (s.sp % 65536) s.pc,
           sp := (s.sp + 1) % 65536,
           pc := w &&& 0x0FFF }

/-- opcode 3XNN: skip next instruction if register[x] == NN. -/
def opcode3XNN_BranchIfEqToVal (s : chip8) (w : Nat) : chip8 :=
  if rd8 s.registers ((w &&& 0x0F00) >>> 8) = (w &&& 0x00FF) then
    { s with pc := (s.pc + 4) % 65536 }
  else
    { s with pc := (s.pc + 2) % 65536 }

/-- opcode 4XNN: skip next instruction if register[x] != NN. -/
def opcode4XNN_BranchIfNEq (s : chip8) (w : Nat) : chip8 :=
  if rd8 s.registers ((w &&& 0x0F00) >>> 8) ≠ (w &&& 0x00FF) then
    { s with pc := (s.pc + 4) % 65536 }
  else
    { s with pc := (s.pc + 2) % 65536 }

/-- opcode 5XY0: skip next instruction if register[x] == register[y]. -/
def opcode5XYN_BranchIfEqReg (s : chip8) (w : Nat) : chip8 :=
  if rd8 s.registers ((w &&& 0x0F00) >>> 8) = rd8 s.registers ((w &&& 0x00F0) >>> 4) then
    { s with pc := (s.pc + 4) % 65536 }
  else
    { s with pc := (s.pc + 2) % 65536 }

/-- opcode 6XNN: register[x] = NN. -/
def opcode6XNN_SetReg (s : chip8) (w : Nat) : chip8 :=
  { s with registers := upd8 s.registers ((w &&& 0x0F00) >>> 8) (w &&& 0x00FF),
           pc := (s.pc + 2) % 65536 }

/-- opcode 7XNN: register[x] += NN, carry flag not changed. -/
def opcode7XNN_AddRegNoCarry (s : chip8) (w : Nat) : chip8 :=
  { s with registers := upd8 s.registers ((w &&& 0x0F00) >>> 8)
             (rd8 s.registers ((w &&& 0x0F00) >>> 8) + (w &&& 0x00FF)),
           pc := (s.pc + 2) % 65536 }

/-- opcode 8XY0: register[x] = register[y]. -/
def opcode8XY0_SetReg (s : chip8) (w : Nat) : chip8 :=
  { s with registers := upd8 s.registers ((w &&& 0x0F00) >>> 8)
             (rd8 s.registers ((w &&& 0x00F0) >>> 4)),
           pc := (s.pc + 2) % 65536 }

/-- opcode 8XY1: register[x] |= register[y]. -/
def opcode8XY1_RegisterOrEq (s : chip8) (w : Nat) : chip8 :=
  { s with registers := upd8 s.registers ((w &&& 0x0F00) >>> 8)
             (rd8 s.registers ((w &&& 0x0F00) >>> 8) ||| rd8 s.registers ((w &&& 0x00F0) >>> 4)),
           pc := (s.pc + 2) % 65536 }

/-- opcode 8XY2: register[x] &= register[y]. -/
def opcode8XY2_RegisterAndEq (s : chip8) (w : Nat) : chip8 :=
  { s with registers := upd8 s.registers ((w &&& 0x0F00) >>> 8)
             (rd8 s.registers ((w &&& 0x0F00) >>> 8) &&& rd8 s.registers ((w &&& 0x00F0) >>> 4)),
           pc := (s.pc + 2) % 65536 }

/-- opcode 8XY3: register[x] ^= register[y]. -/
def opcode8XY3_RegisterXorEq (s : chip8) (w : Nat) : chip8 :=
  { s with registers := upd8 s.registers ((w &&& 0x0F00) >>> 8)
             (rd8 s.registers ((w &&& 0x0F00) >>> 8) ^^^ rd8 s.registers ((w &&& 0x00F0) >>> 4)),
           pc := (s.pc + 2) % 65536 }

/-- opcode 8XY4: carry flag test (on the values before any write), then
register[x] += register[y].  Note the source writes register[0xF] before the
addition, so when x or y is 0xF the addition sees the flag value. -/
def opcode8XY4_AddRegCarry (s : chip8) (w : Nat) : chip8 :=
  let s1 :=
    if 255 - rd8 s.registers ((w &&& 0x0F00) >>> 8) < rd8 s.registers ((w &&& 0x00F0) >>> 4) then
      { s with registers := upd8 s.registers 0xF 1 }
    else
      { s with registers := upd8 s.registers 0xF 0 }
  { s1 with registers := upd8 s1.registers ((w &&& 0x0F00) >>> 8)
              (rd8 s1.registers ((w &&& 0x0F00) >>> 8) + rd8 s1.registers ((w &&& 0x00F0) >>> 4)),
            pc := (s1.pc + 2) % 65536 }

/-- opcode 8XY5: borrow flag (0 if register[y] > register[x] else 1), then
register[x] -= register[y] (wrapping mod 256). -/
def opcode8XY5_SubEqRegCarry (s : chip8) (w : Nat) : chip8 :=
  let s1 :=
    if rd8 s.registers ((w &&& 0x0F00) >>> 8) < rd8 s.registers ((w &&& 0x00F0) >>> 4) then
      { s with registers := upd8 s.registers 0xF 0 }
    else
      { s with registers := upd8 s.registers 0xF 1 }
  { s1 with registers := upd8 s1.registers ((w &&& 0x0F00) >>> 8)
              (rd8 s1.registers ((w &&& 0x0F00) >>> 8) + 256 - rd8 s1.registers ((w &&& 0x00F0) >>> 4)),
            pc := (s1.pc + 2) % 65536 }

/-- opcode 8XY6: flag = lowest bit of register[x]; register[x] >>= 1. -/
def opcode8XY6_RegShiftRight (s : chip8) (w : Nat) : chip8 :=
  let s1 := { s with registers := upd8 s.registers 0xF
                       (rd8 s.registers ((w &&& 0xF00) >>> 8) &&& 1) }
  { s1 with registers := upd8 s1.registers ((w &&& 0xF00) >>> 8)
              (rd8 s1.registers ((w &&& 0xF00) >>> 8) >>> 1),
            pc := (s1.pc + 2) % 65536 }

/-- opcode 8XY7: flag = 0 if register[x] > register[y] else 1; then
register[x] = register[y] - register[x] (wrapping mod 256). -/
def opcode8XY7_SubRegCarry (s : chip8) (w : Nat) : chip8 :=
  let s1 :=
    if rd8 s.registers ((w &&& 0x00F0) >>> 4) < rd8 s.registers ((w &&& 0x0F00) >>> 8) then
      { s with registers := upd8 s.registers 0xF 0 }
    else
      { s with registers := upd8 s.registers 0xF 1 }
  { s1 with registers := upd8 s1.registers ((w &&& 0x0F00) >>> 8)
              (rd8 s1.registers ((w &&& 0x00F0) >>> 4) + 256 - rd8 s1.registers ((w &&& 0x0F00) >>> 8)),
            pc := (s1.pc + 2) % 65536 }

/-- opcode 8XYE: flag = top bit of register[x]; register[x] <<= 1. -/
def opcode8XYE_RegShiftLeft (s : chip8) (w : Nat) : chip8 :=
  let s1 := { s with registers := upd8 s.registers 0xF
                       (rd8 s.registers ((w &&& 0x0F00) >>> 8) >>> 7) }
  { s1 with registers := upd8 s1.registers ((w &&& 0x0F00) >>> 8)
              (rd8 s1.registers ((w &&& 0x0F00) >>> 8) <<< 1),
            pc := (s1.pc + 2) % 65536 }

/-- opcode 9XY0: skip next instruction if register[x] != register[y]. -/
def opcode9XY0_BranchIfNEqReg (s : chip8) (w : Nat) : chip8 :=
  if rd8 s.registers ((w &&& 0x0F00) >>> 8) ≠ rd8 s.registers ((w &&& 0x00F0) >>> 4) then
    { s with pc := (s.pc + 4) % 65536 }
  else
    { s with pc := (s.pc + 2) % 65536 }

/-- opcode ANNN: index = NNN. -/
def opcodeANNN_SetIndex (s : chip8) (w : Nat) : chip8 :=
  { s with index := w &&& 0xFFF, pc := (s.pc + 2) % 65536 }

/-- opcode BNNN as written in the source: cpu.pc = cpu.registers[0] + opcode
& 0xFFF, which by C++ precedence is (registers[0] + opcode) & 0xFFF. -/
def opcodeBNNN_JumpToAddr (s : chip8) (w : Nat) : chip8 :=
  { s with pc := (rd8 s.registers 0 + w) &&& 0xFFF }

/-- opcode CXNN: register[x] = (rand() % 256) & NN; the rand() result is the
explicit oracle argument rnd. -/
def opcodeCXNN_Rand (s : chip8) (w rnd : Nat) : chip8 :=
  { s with registers := upd8 s.registers ((w &&& 0x0F00) >>> 8)
             ((rnd % 256) &&& (w &&& 0xFF)),
           pc := (s.pc + 2) % 65536 }

/-- Inner-loop body of the sprite draw: for bit position x of the row byte, if
that bit is set, record a collision when the target pixel is lit and XOR the
pixel. -/
def drawPixel (pixel posx posy y x : Nat) (s : chip8) : chip8 :=
  if pixel &&& (0x80 >>> x) ≠ 0 then
    let idx := posx + x + (posy + y) * GfxDisplayWidth
    let s1 := if rd8 s.gfx idx = 1 then { s with registers := upd8 s.registers 0xF 1 } else s
    { s1 with gfx := upd8 s1.gfx idx (rd8 s1.gfx idx ^^^ 1) }
  else s

/-- opcode DXYN: draw the 8-wide, N-tall sprite at (register[x], register[y])
reading sprite rows from memory[index + row]; flag register reset to 0 first
and set to 1 on any lit pixel turned off; pc += 2 and draw flag set. -/
def opcodeDXYN_Draw (s : chip8) (w : Nat) : chip8 :=
  let posx := rd8 s.registers ((w &&& 0x0F00) >>> 8)
  let posy := rd8 s.registers ((w &&& 0x00F0) >>> 4)
  let height := w &&& 0x000F
  let s0 := { s with registers := upd8 s.registers 0xF 0 }
  let sd := (List.range height).foldl
    (fun acc y =>
      let pixel := rd8 acc.memory (acc.index % 65536 + y)
      (List.range 8).foldl (fun acc2 x => drawPixel pixel posx posy y x acc2) acc)
    s0
  { sd with pc := (sd.pc + 2) % 65536, draw_flag := true }

/-- opcode EX9E: skip next instruction if key[register[x]] is pressed. -/
def opcodeEX9E_SkipIfKeyPressed (s : chip8) (w : Nat) : chip8 :=
  if rd8 s.key (rd8 s.registers ((w &&& 0x0F00) >>> 8)) ≠ 0 then
    { s with pc := (s.pc + 4) % 65536 }
  else
    { s with pc := (s.pc + 2) % 65536 }

/-- opcode EXA1 (source function name kept): skip next instruction if
key[register[x]] is not pressed. -/
def opcodeEX9E_SkipIfKeyNotPressed (s : chip8) (w : Nat) : chip8 :=
  if rd8 s.key (rd8 s.registers ((w &&& 0x0F00) >>> 8)) = 0 then
    { s with pc := (s.pc + 4) % 65536 }
  else
    { s with pc := (s.pc + 2) % 65536 }

/-- opcode FX07: register[x] = delay_timer. -/
def opcodeFX07_GetDelay (s : chip8) (w : Nat) : chip8 :=
  { s with registers := upd8 s.registers ((w &&& 0xF00) >>> 8) (s.delay_timer % 256),
           pc := (s.pc + 2) % 65536 }

/-- The scan of the keypad performed by the wait loop of opcode FX0A: the first
index 0 ≤ idx < MaxNumKeys with key[idx] != 0, if any. -/
def findPressedKey (s : chip8) : Option Nat :=
  (List.range 16).find? (fun idx => rd8 s.key idx != 0)

/-- opcode FX0A on an unblocked state: register[x] = index of the pressed key
found by the scan (when no key is pressed the source loops forever; the cycle
model reports that case as blocked and never applies this function). -/
def opcodeFX0A_WaitForKey (s : chip8) (w : Nat) : chip8 :=
  match findPressedKey s with
  | some k =>
      { s with registers := upd8 s.registers ((w &&& 0xF00) >>> 8) k,
               pc := (s.pc + 2) % 65536 }
  | none => s

/-- opcode FX15: delay_timer = register[x]. -/
def opcodeFX15_SetDelayTimer (s : chip8) (w : Nat) : chip8 :=
  { s with delay_timer := rd8 s.registers ((w &&& 0xF00) >>> 8),
           pc := (s.pc + 2) % 65536 }

/-- opcode FX18: sound_timer = register[x]. -/
def opcodeFX18_SetSoundTimer (s : chip8) (w : Nat) : chip8 :=
  { s with sound_timer := rd8 s.registers ((w &&& 0xF00) >>> 8),
           pc := (s.pc + 2) % 65536 }

/-- opcode FX1E: index += register[x] (unsigned short wraparound). -/
def opcodeFX1E_AddIndex (s : chip8) (w : Nat) : chip8 :=
  { s with index := (s.index + rd8 s.registers ((w &&& 0xF00) >>> 8)) % 65536,
           pc := (s.pc + 2) % 65536 }

/-- opcode FX29: index = FONT_MEMORY_OFFSET + register[x]. -/
def opcodeFX29_SetSpriteAddr (s : chip8) (w : Nat) : chip8 :=
  { s with index := FONT_MEMORY_OFFSET + rd8 s.registers ((w &&& 0xF00) >>> 8),
           pc := (s.pc + 2) % 65536 }

/-- opcode FX33: binary coded decimal of register[x] stored at memory[index],
memory[index+1], memory[index+2]. -/
def opcodeFX33_BCD (s : chip8) (w : Nat) : chip8 :=
  let v := rd8 s.registers ((w &&& 0xF00) >>> 8)
  let i := s.index % 65536
  { s with memory := upd8 (upd8 (upd8 s.memory i (v / 100)) (i + 1) (v / 10 % 10))
                          (i + 2) (v % 100 % 10),
           pc := (s.pc + 2) % 65536 }

/-- opcode FX55: store register[0]..register[x] into memory[index..index+x];
index unchanged. -/
def opcodeFX55_RegDump (s : chip8) (w : Nat) : chip8 :=
  { s with memory := writeSeq s.memory (s.index % 65536) (fun i => rd8 s.registers i)
                       (((w &&& 0xF00) >>> 8) + 1),
           pc := (s.pc + 2) % 65536 }

/-- opcode FX65: load memory[index..index+x] into register[0]..register[x];
index unchanged. -/
def opcodeFX65_RegLoad (s : chip8) (w : Nat) : chip8 :=
  { s with registers := writeSeq s.registers 0 (fun i => rd8 s.memory (s.index % 65536 + i))
                          (((w &&& 0xF00) >>> 8) + 1),
           pc := (s.pc + 2) % 65536 }

/-- Fetch of chip8Cycle: the instruction word memory[pc] << 8 | memory[pc+1],
composed big-endian (result of the unsigned short assignment). -/
def fetch (s : chip8) : Nat :=
  (rd8 s.memory (s.pc % 65536) <<< 8 ||| rd8 s.memory (s.pc % 65536 + 1)) % 65536

/-- Outcome of the decode-and-dispatch switch of chip8Cycle: ok carries the
state after the selected operation ran (also for the silent fallthrough of an
unmatched 0xE or 0xF family word); unknown is the printf + early return path;
blocked is an FX0A that finds no pressed key and never returns. -/
inductive DecodeResult where
  | ok (s : chip8)
  | unknown
  | blocked

/-- The nested switch of chip8Cycle, dispatching the instruction word w on its
top nibble and, for families 0x0 / 0x8 / 0xE / 0xF, on a secondary field. -/
def decodeExec (rnd : Nat) (s : chip8) (w : Nat) : DecodeResult :=
  let fam := w &&& 0xF000
  if fam = 0x0000 then
    let low := w &&& 0x00F
    if low = 0x000 then .ok (opcode00E0_ClearScreen s)
    else if low = 0x00E then .ok (opcode00EE_SubroutineReturn s)
    else .unknown
  else if fam = 0x1000 then .ok (opcode1NNN_Goto s w)
  else if fam = 0x2000 then .ok (opcode2NNN_Subroutine s w)
  else if fam = 0x3000 then .ok (opcode3XNN_BranchIfEqToVal s w)
  else if fam = 0x4000 then .ok (opcode4XNN_BranchIfNEq s w)
  else if fam = 0x5000 then .ok (opcode5XYN_BranchIfEqReg s w)
  else if fam = 0x6000 then .ok (opcode6XNN_SetReg s w)
  else if fam = 0x7000 then .ok (opcode7XNN_AddRegNoCarry s w)
  else if fam = 0x8000 then
    let low := w &&& 0x000F
    if low = 0x0000 then .ok (opcode8XY0_SetReg s w)
    else if low = 0x0001 then .ok (opcode8XY1_RegisterOrEq s w)
    else if low = 0x0002 then .ok (opcode8XY2_RegisterAndEq s w)
    else if low = 0x0003 then .ok (opcode8XY3_RegisterXorEq s w)
    else if low = 0x0004 then .ok (opcode8XY4_AddRegCarry s w)
    else if low = 0x0005 then .ok (opcode8XY5_SubEqRegCarry s w)
    else if low = 0x0006 then .ok (opcode8XY6_RegShiftRight s w)
    else if low = 0x0007 then .ok (opcode8XY7_SubRegCarry s w)
    else if low = 0x000E then .ok (opcode8XYE_RegShiftLeft s w)
    else .unknown
  else if fam = 0x9000 then .ok (opcode9XY0_BranchIfNEqReg s w)
  else if fam = 0xA000 then .ok (opcodeANNN_SetIndex s w)
  else if fam = 0xB000 then .ok (opcodeBNNN_JumpToAddr s w)
  else if fam = 0xC000 then .ok (opcodeCXNN_Rand s w rnd)
  else if fam = 0xD000 then .ok (opcodeDXYN_Draw s w)
  else if fam = 0xE000 then
    let low := w &&& 0x000F
    if low = 0x000E then .ok (opcodeEX9E_SkipIfKeyPressed s w)
    else if low = 0x0001 then .ok (opcodeEX9E_SkipIfKeyNotPressed s w)
    else .ok s
  else if fam = 0xF000 then
    let low := w &&& 0x00FF
    if low = 0x0007 then .ok (opcodeFX07_GetDelay s w)
    else if low = 0x000A then
      match findPressedKey s with
      | some _ => .ok (opcodeFX0A_WaitForKey s w)
      | none => .blocked
    else if low = 0x0015 then .ok (opcodeFX15_SetDelayTimer s w)
    else if low = 0x0018 then .ok (opcodeFX18_SetSoundTimer s w)
    else if low = 0x001E then .ok (opcodeFX1E_AddIndex s w)
    else if low = 0x0029 then .ok (opcodeFX29_SetSpriteAddr s w)
    else if low = 0x0033 then .ok (opcodeFX33_BCD s w)
    else if low = 0x0055 then .ok (opcodeFX55_RegDump s w)
    else if low = 0x0065 then .ok (opcodeFX65_RegLoad s w)
    else .ok s
  else .unknown

/-- Timer update at the end of chip8Cycle: each timer is decremented by one
when positive (the sound branch also fires the beep signal when the sound
timer is 1; playing the beep is a TODO in the source and carries no state). -/
def tickTimers (s : chip8) : chip8 :=
  let s1 := if 0 < s.delay_timer % 256 then { s with delay_timer := s.delay_timer % 256 - 1 } else s
  if 0 < s1.sound_timer % 256 then { s1 with sound_timer := s1.sound_timer % 256 - 1 } else s1

/-- Outcome of one chip8Cycle call: done is a cycle that reached the timer
update; aborted is the unknown-opcode printf + return (machine state carried
unchanged); blocked is a cycle stuck in the FX0A wait loop. -/
inductive CycleResult where
  | done (s : chip8)
  | aborted (s : chip8)
  | blocked

/-- chip8Cycle: fetch, dispatch, then (unless the dispatch returned early)
update the timers. -/
def chip8Cycle (rnd : Nat) (s : chip8) : CycleResult :=
  match decodeExec rnd s (fetch s) with
  | .ok s1 => .done (tickTimers s1)
  | .unknown => .aborted s
  | .blocked => .blocked

/-- The intermediate state of a cycle after the dispatched operation ran and
before the timer update (meaningful when the dispatch result is ok). -/
def execState (rnd : Nat) (s : chip8) : chip8 :=
  match decodeExec rnd s (fetch s) with
  | .ok m => m
  | .unknown => s
  | .blocked => s

/-- The instruction word w dispatches to one of the 35 implemented operations
and that operation completes: every family/sub-family case of the switch in
chip8Cycle that calls an impl function, with the FX0A case additionally
requiring a pressed key (otherwise its wait loop never returns). -/
def knownDispatch (s : chip8) (w : Nat) : Prop :=
  let fam := w &&& 0xF000
  let low := w &&& 0x000F
  let lowb := w &&& 0x00FF
  (fam = 0x0000 ∧ (low = 0x0 ∨ low = 0xE)) ∨
  fam = 0x1000 ∨ fam = 0x2000 ∨ fam = 0x3000 ∨ fam = 0x4000 ∨
  fam = 0x5000 ∨ fam = 0x6000 ∨ fam = 0x7000 ∨
  (fam = 0x8000 ∧ (low = 0x0 ∨ low = 0x1 ∨ low = 0x2 ∨ low = 0x3 ∨ low = 0x4 ∨
                   low = 0x5 ∨ low = 0x6 ∨ low = 0x7 ∨ low = 0xE)) ∨
  fam = 0x9000 ∨ fam = 0xA000 ∨ fam = 0xB000 ∨ fam = 0xC000 ∨ fam = 0xD000 ∨
  (fam = 0xE000 ∧ (low = 0xE ∨ low = 0x1)) ∨
  (fam = 0xF000 ∧ (lowb = 0x07 ∨ (lowb = 0x0A ∧ (findPressedKey s).isSome = true) ∨
                   lowb = 0x15 ∨ lowb = 0x18 ∨ lowb = 0x1E ∨ lowb = 0x29 ∨
                   lowb = 0x33 ∨ lowb = 0x55 ∨ lowb = 0x65))

/-- chip8Initialize: pc to PROGRAM_OFFSET, opcode/index/sp/draw flag cleared,
gfx/stack/registers/memory/keypad zero-filled, the 80-byte font set copied to
FONT_MEMORY_OFFSET, both timers reset.  The srand(time(NULL)) call seeds the
process-global random source and touches no field of the machine state. -/
def chip8Initialize (_s : chip8) : chip8 :=
  { opcode := 0,
    memory := fun a =>
      if FONT_MEMORY_OFFSET ≤ a ∧ a < FONT_MEMORY_OFFSET + 80 then
        chip8_fontset (a - FONT_MEMORY_OFFSET)
      else 0,
    registers := fun _ => 0,
    index := 0,
    pc := PROGRAM_OFFSET,
    gfx := fun _ => 0,
    delay_timer := 0,
    sound_timer := 0,
    stack := fun _ => 0,
    sp := 0,
    key := fun _ => 0,
    draw_flag := false }

/-- chip8LoadRom: the byte source (file contents, here a list of bytes) is
copied verbatim into memory starting at PROGRAM_OFFSET.  The source performs
no size check (the bound check present in the original is commented out), so
every byte of the source is written, however long it is. -/
def chip8LoadRom (s : chip8) (rom : List Nat) : chip8 :=
  { s with memory := writeSeq s.memory PROGRAM_OFFSET (fun i => rom.getD i 0) rom.length }

/-- Bounds-guarded (total) variant of the sprite draw: checks that every
sprite byte read lies inside the 4096-byte memory and every framebuffer cell
touched lies inside the 2048-cell gfx array, and refuses (none) otherwise. -/
def opcodeDXYN_DrawChecked (s : chip8) (w : Nat) : Option chip8 :=
  let posx := rd8 s.registers ((w &&& 0x0F00) >>> 8)
  let posy := rd8 s.registers ((w &&& 0x00F0) >>> 4)
  let height := w &&& 0x000F
  if (List.range height).all (fun r =>
        decide (s.index % 65536 + r < MaxMemory) &&
        (List.range 8).all (fun b =>
          decide (posx + b + (posy + r) * GfxDisplayWidth < GfxDisplaySize))) then
    some (opcodeDXYN_Draw s w)
  else
    none

/-- Whether a dispatch outcome selected an operation (ok). -/
def DecodeResult.isOk : DecodeResult → Bool
  | .ok _ => true
  | _ => false

/-- Whether a cycle outcome is the unknown-opcode report-and-abort path. -/
def resAborted : CycleResult → Bool
  | .aborted _ => true
  | _ => false

/-- Program counter of the state carried by a cycle outcome (0 when blocked). -/
def resPC : CycleResult → Nat
  | .done s => s.pc
  | .aborted s => s.pc
  | .blocked => 0

/-- Framebuffer of the state carried by a cycle outcome (zero when blocked). -/
def resGfx : CycleResult → Nat → Nat
  | .done s => s.gfx
  | .aborted s => s.gfx
  | .blocked => fun _ => 0

/-- An all-zero machine state used as base for concrete test states. -/
def zeroChip : chip8 :=
  { opcode := 0, memory := fun _ => 0, registers := fun _ => 0, index := 0, pc := 0,
    gfx := fun _ => 0, delay_timer := 0, sound_timer := 0, stack := fun _ => 0, sp := 0,
    key := fun _ => 0, draw_flag := false }

/-- Draw-test state: all-zero framebuffer, origin registers V2 = V3 = 2, index
at the four sprite bytes FF 18 18 18 placed at 0x202. -/
def sC1 : chip8 :=
  { zeroChip with pc := 0x200,
                  index := 0x202,
                  registers := fun i => if i = 2 then 2 else if i = 3 then 2 else 0,
                  memory := fun a =>
                    if a = 0x202 then 0xFF else if a = 0x203 then 0x18
                    else if a = 0x204 then 0x18 else if a = 0x205 then 0x18 else 0 }

/-- The 14 framebuffer cells the 8 x 4 sprite FF 18 18 18 at (2,2) must light:
row 2 columns 2..9, rows 3..5 columns 5 and 6 (row-major, width 64). -/
def c1LitCells : List Nat :=
  [130, 131, 132, 133, 134, 135, 136, 137, 197, 198, 261, 262, 325, 326]

/-- State whose fetched word is 0x0010 (family 0x0, not 00E0 and not 00EE)
with a fully lit framebuffer. -/
def sC2cex : chip8 :=
  { zeroChip with pc := 0x200,
                  gfx := fun _ => 1,
                  memory := fun a => if a = 0x201 then 0x10 else 0 }

/-- State whose fetched word is 0x0A53 (family 0x0, low nibble 3). -/
def sC2w : chip8 :=
  { zeroChip with pc := 0x200,
                  memory := fun a => if a = 0x200 then 0x0A else if a = 0x201 then 0x53 else 0 }

/-- Registers V0 = 1 and VF = 5, exercising opcode 8XY4 with y = 0xF. -/
def sC3cex : chip8 :=
  { zeroChip with registers := fun i => if i = 0 then 1 else if i = 15 then 5 else 0 }

/-- Registers V1 = 4 and V2 = 0xFF, the overflowing 8XY4 example. -/
def sC3w : chip8 :=
  { zeroChip with registers := fun i => if i = 1 then 4 else if i = 2 then 0xFF else 0 }

/-- A ROM image of 3585 bytes, one more than the 3584 bytes of memory that
remain from PROGRAM_OFFSET to the end of the 4096-byte space. -/
def romBig : List Nat := List.replicate 3585 0xAB

/-- Register V0 = 0xFF, exercising opcode BNNN with nnn = 0xFFF. -/
def sC6 : chip8 :=
  { zeroChip with registers := fun i => if i = 0 then 0xFF else 0 }

/-- Known register contents in V0..V7 for the dump / load round trip. -/
def sC7 : chip8 :=
  { zeroChip with index := 0x300,
                  registers := fun i => if i < 8 then i + 10 else 0 }

/-- State whose fetched word is 0x6005 with both timers running. -/
def sC9w : chip8 :=
  { zeroChip with pc := 0x200,
                  delay_timer := 5,
                  sound_timer := 3,
                  memory := fun a => if a = 0x200 then 0x60 else if a = 0x201 then 0x05 else 0 }

/-- Byte cell written at its own index reads back as the value mod 256. -/
theorem rd8_upd8_same (f : Nat → Nat) (i v : Nat) : rd8 (upd8 f i v) i = v % 256 := by
  simp [rd8, upd8]

/-- Byte cell updates leave other indices unchanged. -/
theorem rd8_upd8_other (f : Nat → Nat) (i v j : Nat) (h : j ≠ i) :
    rd8 (upd8 f i v) j = rd8 f j := by
  simp [rd8, upd8, h]

/-- Reading back inside a run of sequential byte writes. -/
theorem writeSeq_get_lt (f g : Nat → Nat) (base : Nat) :
    ∀ n j, j < n → writeSeq f base g n (base + j) = g j % 256 := by
  intro n
  induction n with
  | zero => intro j hj; omega
  | succ n ih =>
    intro j hj
    unfold writeSeq
    rw [List.range_succ, List.foldl_append, List.foldl_cons, List.foldl_nil]
    by_cases h : j = n
    · subst h
      simp [upd8]
    · have hj' : j < n := by omega
      have hne : base + j ≠ base + n := by omega
      show upd8 ((List.range n).foldl (fun m i => upd8 m (base + i) (g i)) f) (base + n) (g n)
             (base + j) = g j % 256
      rw [upd8, if_neg hne]
      exact ih j hj'

/-- Sequential byte writes do not touch addresses outside the written range. -/
theorem writeSeq_get_out (f g : Nat → Nat) (base : Nat) :
    ∀ n a, (∀ i, i < n → base + i ≠ a) → writeSeq f base g n a = f a := by
  intro n
  induction n with
  | zero => intro a _; rfl
  | succ n ih =>
    intro a ha
    unfold writeSeq
    rw [List.range_succ, List.foldl_append, List.foldl_cons, List.foldl_nil]
    show upd8 ((List.range n).foldl (fun m i => upd8 m (base + i) (g i)) f) (base + n) (g n) a
           = f a
    rw [upd8, if_neg (fun he => ha n (by omega) he.symm)]
    exact ih a (fun i hi => ha i (by omega))

/-- The delay timer after the end-of-cycle update: decremented when positive,
unchanged at zero. -/
theorem tick_delay (t : chip8) :
    (tickTimers t).delay_timer % 256 =
      (if 0 < t.delay_timer % 256 then t.delay_timer % 256 - 1 else t.delay_timer % 256) := by
  unfold tickTimers
  by_cases h1 : 0 < t.delay_timer % 256 <;> simp [h1] <;> split <;> simp <;> omega

/-- The sound timer after the end-of-cycle update: decremented when positive,
unchanged at zero. -/
theorem tick_sound (t : chip8) :
    (tickTimers t).sound_timer % 256 =
      (if 0 < t.sound_timer % 256 then t.sound_timer % 256 - 1 else t.sound_timer % 256) := by
  unfold tickTimers
  by_cases h1 : 0 < t.delay_timer % 256 <;> simp [h1] <;> split <;> simp <;> omega

/-- The end-of-cycle update never increases the delay timer. -/
theorem tick_delay_le (t : chip8) :
    (tickTimers t).delay_timer % 256 ≤ t.delay_timer % 256 := by
  rw [tick_delay]; split <;> omega

/-- The end-of-cycle update never increases the sound timer. -/
theorem tick_sound_le (t : chip8) :
    (tickTimers t).sound_timer % 256 ≤ t.sound_timer % 256 := by
  rw [tick_sound]; split <;> omega

/-- Every instruction word that the switch of chip8Cycle dispatches to an
implemented operation (with a pressed key when the operation is FX0A) makes
the decode stage return ok. -/
theorem knownDispatch_ok (rnd : Nat) (s : chip8) (w : Nat) (h : knownDispatch s w) :
    (decodeExec rnd s w).isOk = true := by
  simp only [knownDispatch] at h
  rcases h with ⟨hf, hl | hl⟩ | hf | hf | hf | hf | hf | hf | hf |
    ⟨hf, hl | hl | hl | hl | hl | hl | hl | hl | hl⟩ |
    hf | hf | hf | hf | hf | ⟨hf, hl | hl⟩ |
    ⟨hf, hl | ⟨hl, hk⟩ | hl | hl | hl | hl | hl | hl | hl⟩
  all_goals try simp [decodeExec, hf, DecodeResult.isOk]
  all_goals try simp [decodeExec, hf, hl, DecodeResult.isOk]
  all_goals
    rcases Option.isSome_iff_exists.mp hk with ⟨k, hkk⟩
  all_goals simp [hkk, DecodeResult.isOk]

/-- C1: starting from an all-zero 64x32 framebuffer with the origin registers
holding (2,2) and index at the sprite bytes FF 18 18 18, executing the draw
instruction 0xD234 (height 4) lights exactly the 14 cells of c1LitCells (row 2
columns 2..9 and rows 3..5 columns 5 and 6), leaves every other cell 0,
leaves VF = 0, sets the redraw flag and advances pc from 0x200 to 0x202. -/
theorem draw_sprite_exact :
    ((List.range 2048).all (fun i =>
      (opcodeDXYN_Draw sC1 0xD234).gfx i ==
        (if c1LitCells.contains i then 1 else 0)) = true) ∧
    rd8 (opcodeDXYN_Draw sC1 0xD234).registers 0xF = 0 ∧
    (opcodeDXYN_Draw sC1 0xD234).draw_flag = true ∧
    (opcodeDXYN_Draw sC1 0xD234).pc = 0x202 ∧
    c1LitCells.length = 14 := by
  decide

/-- C2 (amended): the cycle reports the unknown opcode and aborts, leaving the
whole machine state (pc and framebuffer included) unchanged, exactly in the
default branches of the family 0x0 and family 0x8 secondary dispatches: a
family 0x0 word whose low nibble is neither 0x0 nor 0xE, or a family 0x8 word
whose low nibble selects no arithmetic operation. -/
theorem unknown_opcode_aborts (rnd : Nat) (s : chip8)
    (h : (fetch s &&& 0xF000 = 0x0000 ∧ ¬ (fetch s &&& 0x00F = 0x0) ∧
            ¬ (fetch s &&& 0x00F = 0xE)) ∨
         (fetch s &&& 0xF000 = 0x8000 ∧ ¬ (fetch s &&& 0x000F = 0x0) ∧
            ¬ (fetch s &&& 0x000F = 0x1) ∧ ¬ (fetch s &&& 0x000F = 0x2) ∧
            ¬ (fetch s &&& 0x000F = 0x3) ∧ ¬ (fetch s &&& 0x000F = 0x4) ∧
            ¬ (fetch s &&& 0x000F = 0x5) ∧ ¬ (fetch s &&& 0x000F = 0x6) ∧
            ¬ (fetch s &&& 0x000F = 0x7) ∧ ¬ (fetch s &&& 0x000F = 0xE))) :
    chip8Cycle rnd s = CycleResult.aborted s := by
  rcases h with ⟨hf, h0, hE⟩ | ⟨hf, h0, h1, h2, h3, h4, h5, h6, h7, hE⟩
  · simp [chip8Cycle, decodeExec, hf, h0, hE]
  · simp [chip8Cycle, decodeExec, hf, h0, h1, h2, h3, h4, h5, h6, h7, hE]

/-- C2 witness: the family 0x0 word 0x0A53 (low nibble 3) makes the cycle
abort with the state unchanged. -/
theorem unknown_opcode_aborts_witness :
    chip8Cycle 0 sC2w = CycleResult.aborted sC2w :=
  unknown_opcode_aborts 0 sC2w (Or.inl (by decide))

/-- C2 counterexample: the word 0x0010 is family 0x0 and is neither 0x00E0
nor 0x00EE, yet the cycle does not abort: it runs the clear-screen operation,
advancing pc from 0x200 to 0x202 and zeroing the (previously lit)
framebuffer, because the family 0x0 dispatch tests only the low nibble. -/
theorem unknown_opcode_cex :
    fetch sC2cex &&& 0xF000 = 0x0000 ∧ fetch sC2cex ≠ 0x00E0 ∧ fetch sC2cex ≠ 0x00EE ∧
    resAborted (chip8Cycle 0 sC2cex) = false ∧
    resPC (chip8Cycle 0 sC2cex) = 0x202 ∧ sC2cex.pc = 0x200 ∧
    resGfx (chip8Cycle 0 sC2cex) 0 = 0 ∧ sC2cex.gfx 0 = 1 := by
  decide

/-- C3 (amended): for register indices x and y both different from 0xF,
executing 8xy4 sets VF to 1 exactly when the original Vx plus the original Vy
exceeds 255 (else 0), sets Vx to (Vx + Vy) mod 256 over the original values,
and advances pc by 2.  (When x or y is 0xF the flag write precedes the
addition and the original-value description fails.) -/
theorem addRegCarry_spec (s : chip8) (w : Nat)
    (hx : (w &&& 0x0F00) >>> 8 ≠ 0xF) (hy : (w &&& 0x00F0) >>> 4 ≠ 0xF) :
    rd8 (opcode8XY4_AddRegCarry s w).registers 0xF =
      (if 255 < rd8 s.registers ((w &&& 0x0F00) >>> 8) + rd8 s.registers ((w &&& 0x00F0) >>> 4)
       then 1 else 0) ∧
    rd8 (opcode8XY4_AddRegCarry s w).registers ((w &&& 0x0F00) >>> 8) =
      (rd8 s.registers ((w &&& 0x0F00) >>> 8) + rd8 s.registers ((w &&& 0x00F0) >>> 4)) % 256 ∧
    (opcode8XY4_AddRegCarry s w).pc = (s.pc + 2) % 65536 := by
  have hxlt : rd8 s.registers ((w &&& 0x0F00) >>> 8) < 256 := Nat.mod_lt _ (by norm_num)
  have hylt : rd8 s.registers ((w &&& 0x00F0) >>> 4) < 256 := Nat.mod_lt _ (by norm_num)
  simp only [opcode8XY4_AddRegCarry]
  split_ifs with hc <;>
    simp [rd8, upd8, hx, hy, Ne.symm hx, Ne.symm hy] <;>
    omega

/-- C3 witness: 8124 on V1 = 4, V2 = 0xFF gives V1 = 3, VF = 1, pc + 2. -/
theorem addRegCarry_spec_witness :
    rd8 (opcode8XY4_AddRegCarry sC3w 0x8124).registers 0xF =
      (if 255 < rd8 sC3w.registers ((0x8124 &&& 0x0F00) >>> 8) +
            rd8 sC3w.registers ((0x8124 &&& 0x00F0) >>> 4) then 1 else 0) ∧
    rd8 (opcode8XY4_AddRegCarry sC3w 0x8124).registers ((0x8124 &&& 0x0F00) >>> 8) =
      (rd8 sC3w.registers ((0x8124 &&& 0x0F00) >>> 8) +
        rd8 sC3w.registers ((0x8124 &&& 0x00F0) >>> 4)) % 256 ∧
    (opcode8XY4_AddRegCarry sC3w 0x8124).pc = (sC3w.pc + 2) % 65536 :=
  addRegCarry_spec sC3w 0x8124 (by decide) (by decide)

/-- C3 counterexample: with V0 = 1 and VF = 5, opcode 0x80F4 (x = 0, y = 0xF)
leaves V0 = 1, not (V0 + VF) mod 256 = 6, because the carry flag write to VF
happens before the addition reads VF. -/
theorem addRegCarry_cex :
    rd8 (opcode8XY4_AddRegCarry sC3cex 0x80F4).registers 0 = 1 ∧
    (rd8 sC3cex.registers 0 + rd8 sC3cex.registers 0xF) % 256 = 6 ∧
    rd8 (opcode8XY4_AddRegCarry sC3cex 0x80F4).registers 0 ≠
      (rd8 sC3cex.registers 0 + rd8 sC3cex.registers 0xF) % 256 := by
  decide

/-- C4: from any state with sp < 16, executing 2nnn pushes the current pc,
increments sp and jumps to nnn; executing 00EE later, from any state whose
stack pointer and pushed entry are intact, restores pc to the call site plus 2
(as a 16-bit value) and sp to its pre-call value. -/
theorem call_return_roundtrip (s s2 : chip8) (w : Nat)
    (hsp : s.sp < 16) (h2sp : s2.sp = s.sp + 1)
    (h2stack : s2.stack s.sp = (opcode2NNN_Subroutine s w).stack s.sp) :
    (opcode2NNN_Subroutine s w).pc = w &&& 0x0FFF ∧
    (opcode2NNN_Subroutine s w).sp = s.sp + 1 ∧
    rd16 (opcode2NNN_Subroutine s w).stack s.sp = s.pc % 65536 ∧
    (opcode00EE_SubroutineReturn s2).pc = (s.pc + 2) % 65536 ∧
    (opcode00EE_SubroutineReturn s2).sp = s.sp := by
  have hsp65 : s.sp % 65536 = s.sp := Nat.mod_eq_of_lt (by omega)
  have hsp1 : (s2.sp % 65536 + 65535) % 65536 = s.sp := by omega
  refine ⟨rfl, by simp only [opcode2NNN_Subroutine]; omega, ?_, ?_, ?_⟩
  · simp [opcode2NNN_Subroutine, rd16, upd16, hsp65]
  · simp only [opcode00EE_SubroutineReturn, rd16, hsp1]
    rw [h2stack]
    simp [opcode2NNN_Subroutine, upd16, hsp65]
  · simp only [opcode00EE_SubroutineReturn, hsp1]

/-- C4 witness: calling 0x2ABC from the zero state and returning at once
restores pc to 2 and sp to 0. -/
theorem call_return_roundtrip_witness :
    (opcode2NNN_Subroutine zeroChip 0x2ABC).pc = 0x2ABC &&& 0x0FFF ∧
    (opcode2NNN_Subroutine zeroChip 0x2ABC).sp = zeroChip.sp + 1 ∧
    rd16 (opcode2NNN_Subroutine zeroChip 0x2ABC).stack zeroChip.sp = zeroChip.pc % 65536 ∧
    (opcode00EE_SubroutineReturn (opcode2NNN_Subroutine zeroChip 0x2ABC)).pc
      = (zeroChip.pc + 2) % 65536 ∧
    (opcode00EE_SubroutineReturn (opcode2NNN_Subroutine zeroChip 0x2ABC)).sp = zeroChip.sp :=
  call_return_roundtrip zeroChip (opcode2NNN_Subroutine zeroChip 0x2ABC) 0x2ABC
    (by decide) (by decide) rfl

/-- C5: chip8LoadRom performs no size check (the bound check in the source is
commented out): loading a 3585-byte ROM, one byte more than the 3584 bytes
remaining from PROGRAM_OFFSET, writes its last byte at address 4096, past the
end of the 4096-byte memory (valid addresses are 0..4095). -/
theorem loadrom_overruns :
    (chip8LoadRom zeroChip romBig).memory 4096 = 0xAB ∧
    zeroChip.memory 4096 = 0 ∧
    romBig.length = 3585 ∧
    MaxMemory - PROGRAM_OFFSET = 3584 := by
  have hlen : romBig.length = 3585 := List.length_replicate 3585 0xAB
  have hg : romBig.getD 3584 0 = 0xAB := by
    unfold romBig
    rw [List.getD_eq_getElem _ _ (by rw [List.length_replicate]; omega),
      List.getElem_replicate]
  have h := writeSeq_get_lt zeroChip.memory (fun i => romBig.getD i 0)
    PROGRAM_OFFSET 3585 3584 (by omega)
  have hb : PROGRAM_OFFSET + 3584 = 4096 := by norm_num [PROGRAM_OFFSET]
  rw [hb] at h
  refine ⟨?_, rfl, hlen, by norm_num [MaxMemory, PROGRAM_OFFSET]⟩
  simp only [chip8LoadRom]
  rw [hlen, h]
  simp only [List.getD_eq_getElem?_getD] at hg
  simp [hg]

/-- C6: the source line cpu.pc = cpu.registers[0] + opcode & 0xFFF masks the
whole sum by C++ precedence: with V0 = 0xFF and word 0xBFFF the new pc is
0xFE, not the untruncated sum 0xFF + 0xFFF = 0x10FE the spec (and the code
comment) describe. -/
theorem bnnn_masked_sum :
    (opcodeBNNN_JumpToAddr sC6 0xBFFF).pc = 0xFE ∧
    rd8 sC6.registers 0 + (0xBFFF &&& 0xFFF) = 0x10FE ∧
    (0xFE : Nat) ≠ 0x10FE := by
  decide

/-- C7: for any state, dumping V0..Vx with Fx55 and re-loading with Fx65 at
the same index into a zeroed register file reproduces each of the original
x + 1 register values, and the index register is unchanged by both
operations. -/
theorem regdump_regload_roundtrip (s : chip8) (w1 w2 j : Nat)
    (hw : (w2 &&& 0xF00) >>> 8 = (w1 &&& 0xF00) >>> 8)
    (hj : j ≤ (w1 &&& 0xF00) >>> 8)
    (_hbound : s.index % 65536 + ((w1 &&& 0xF00) >>> 8) < 4096) :
    rd8 (opcodeFX65_RegLoad { opcodeFX55_RegDump s w1 with registers := fun _ => 0 } w2).registers j
      = rd8 s.registers j ∧
    (opcodeFX55_RegDump s w1).index = s.index ∧
    (opcodeFX65_RegLoad { opcodeFX55_RegDump s w1 with registers := fun _ => 0 } w2).index
      = s.index := by
  refine ⟨?_, rfl, rfl⟩
  simp only [opcodeFX65_RegLoad, opcodeFX55_RegDump, hw, rd8]
  have h2 := writeSeq_get_lt (fun _ => 0)
      (fun i => writeSeq s.memory (s.index % 65536) (fun i2 => s.registers i2 % 256)
        (((w1 &&& 0xF00) >>> 8) + 1) (s.index % 65536 + i) % 256)
      0 (((w1 &&& 0xF00) >>> 8) + 1) j (by omega)
  rw [Nat.zero_add] at h2
  rw [h2]
  have h1 := writeSeq_get_lt s.memory (fun i2 => s.registers i2 % 256)
      (s.index % 65536) (((w1 &&& 0xF00) >>> 8) + 1) j (by omega)
  simp only [h1]
  omega

/-- C7 witness: dumping V0..V7 of sC7 with 0xF755 and re-loading with 0xF765
reproduces V3 = 13, with the index unchanged. -/
theorem regdump_regload_roundtrip_witness :
    rd8 (opcodeFX65_RegLoad { opcodeFX55_RegDump sC7 0xF755 with registers := fun _ => 0 } 0xF765).registers 3
      = rd8 sC7.registers 3 ∧
    (opcodeFX55_RegDump sC7 0xF755).index = sC7.index ∧
    (opcodeFX65_RegLoad { opcodeFX55_RegDump sC7 0xF755 with registers := fun _ => 0 } 0xF765).index
      = sC7.index :=
  regdump_regload_roundtrip sC7 0xF755 0xF765 3 (by decide) (by decide) (by decide)

/-- C8: initialization produces the same machine state regardless of the prior
state (the srand seeding is a side effect outside the state), so calling it
twice yields identical states; the result has pc = 0x200, opcode, index and
sp zero, the draw flag cleared, both timers 0, zero-filled framebuffer,
registers, stack and keypad, and a memory that is zero except for the 80-byte
font set at FONT_MEMORY_OFFSET. -/
theorem initialize_deterministic (s t : chip8) :
    chip8Initialize s = chip8Initialize t ∧
    chip8Initialize (chip8Initialize s) = chip8Initialize s ∧
    (chip8Initialize s).pc = 0x200 ∧ (chip8Initialize s).opcode = 0 ∧
    (chip8Initialize s).index = 0 ∧ (chip8Initialize s).sp = 0 ∧
    (chip8Initialize s).draw_flag = false ∧
    (chip8Initialize s).delay_timer = 0 ∧ (chip8Initialize s).sound_timer = 0 ∧
    (chip8Initialize s).memory = (fun a =>
        if FONT_MEMORY_OFFSET ≤ a ∧ a < FONT_MEMORY_OFFSET + 80
        then chip8_fontset (a - FONT_MEMORY_OFFSET) else 0) ∧
    (chip8Initialize s).gfx = (fun _ => 0) ∧
    (chip8Initialize s).registers = (fun _ => 0) ∧
    (chip8Initialize s).stack = (fun _ => 0) ∧
    (chip8Initialize s).key = (fun _ => 0) :=
  ⟨rfl, rfl, rfl, rfl, rfl, rfl, rfl, rfl, rfl, rfl, rfl, rfl, rfl, rfl⟩

/-- C9: every cycle that dispatches to a known operation (and completes)
reaches the timer update: the cycle is done, and each timer, read from the
post-operation state, is decremented by exactly one when positive and left
unchanged at 0, never increasing (no wraparound below zero). -/
theorem cycle_known_timers (rnd : Nat) (s : chip8) (h : knownDispatch s (fetch s)) :
    chip8Cycle rnd s = CycleResult.done (tickTimers (execState rnd s)) ∧
    (tickTimers (execState rnd s)).delay_timer % 256 =
      (if 0 < (execState rnd s).delay_timer % 256 then (execState rnd s).delay_timer % 256 - 1
       else (execState rnd s).delay_timer % 256) ∧
    (tickTimers (execState rnd s)).sound_timer % 256 =
      (if 0 < (execState rnd s).sound_timer % 256 then (execState rnd s).sound_timer % 256 - 1
       else (execState rnd s).sound_timer % 256) ∧
    (tickTimers (execState rnd s)).delay_timer % 256 ≤ (execState rnd s).delay_timer % 256 ∧
    (tickTimers (execState rnd s)).sound_timer % 256 ≤ (execState rnd s).sound_timer % 256 := by
  refine ⟨?_, tick_delay _, tick_sound _, tick_delay_le _, tick_sound_le _⟩
  have hok := knownDispatch_ok rnd s (fetch s) h
  unfold chip8Cycle execState
  cases hd : decodeExec rnd s (fetch s) with
  | ok m => rfl
  | unknown => rw [hd] at hok; simp [DecodeResult.isOk] at hok
  | blocked => rw [hd] at hok; simp [DecodeResult.isOk] at hok

/-- C9 witness: the cycle on sC9w (word 0x6005, delay 5, sound 3) completes
and updates both timers by the conditional decrement. -/
theorem cycle_known_timers_witness :
    chip8Cycle 0 sC9w = CycleResult.done (tickTimers (execState 0 sC9w)) ∧
    (tickTimers (execState 0 sC9w)).delay_timer % 256 =
      (if 0 < (execState 0 sC9w).delay_timer % 256 then (execState 0 sC9w).delay_timer % 256 - 1
       else (execState 0 sC9w).delay_timer % 256) ∧
    (tickTimers (execState 0 sC9w)).sound_timer % 256 =
      (if 0 < (execState 0 sC9w).sound_timer % 256 then (execState 0 sC9w).sound_timer % 256 - 1
       else (execState 0 sC9w).sound_timer % 256) ∧
    (tickTimers (execState 0 sC9w)).delay_timer % 256 ≤ (execState 0 sC9w).delay_timer % 256 ∧
    (tickTimers (execState 0 sC9w)).sound_timer % 256 ≤ (execState 0 sC9w).sound_timer % 256 :=
  cycle_known_timers 0 sC9w (by simp only [knownDispatch]; decide)

/-- C10: when the draw operands satisfy Vx <= 56, Vy + n <= 32 and
index + n <= 4096, every framebuffer cell the draw touches is below 2048 and
every sprite byte it reads is below 4096, so the bounds-guarded draw never
takes its out-of-bounds branch and agrees with the unguarded draw. -/
theorem draw_checked_total (s : chip8) (w : Nat)
    (hx : rd8 s.registers ((w &&& 0x0F00) >>> 8) ≤ 56)
    (hy : rd8 s.registers ((w &&& 0x00F0) >>> 4) + (w &&& 0x000F) ≤ 32)
    (hi : s.index % 65536 + (w &&& 0x000F) ≤ 4096) :
    opcodeDXYN_DrawChecked s w = some (opcodeDXYN_Draw s w) := by
  have hc : ((List.range (w &&& 0x000F)).all (fun r =>
      decide (s.index % 65536 + r < MaxMemory) &&
      (List.range 8).all (fun b =>
        decide (rd8 s.registers ((w &&& 0x0F00) >>> 8) + b +
          (rd8 s.registers ((w &&& 0x00F0) >>> 4) + r) * GfxDisplayWidth < GfxDisplaySize)))) = true := by
    rw [List.all_eq_true]
    intro r hr
    rw [List.mem_range] at hr
    rw [Bool.and_eq_true]
    constructor
    · rw [decide_eq_true_eq]
      simp only [MaxMemory]
      omega
    · rw [List.all_eq_true]
      intro b hb
      rw [List.mem_range] at hb
      rw [decide_eq_true_eq]
      simp only [GfxDisplaySize, GfxDisplayWidth, GfxDisplayHeight]
      omega
  unfold opcodeDXYN_DrawChecked
  rw [if_pos hc]

/-- C10 witness: the guarded draw on the concrete sC1 state (V2 = V3 = 2,
n = 4, index = 0x202) succeeds and agrees with the unguarded draw. -/
theorem draw_checked_total_witness :
    opcodeDXYN_DrawChecked sC1 0xD234 = some (opcodeDXYN_Draw sC1 0xD234) :=
  draw_checked_total sC1 0xD234 (by decide) (by decide) (by decide)
